import Mathlib

/-!
Verification of the Squid bridge frontend integration layer.

The development shallowly embeds the orchestration core of the repository:
the retry-with-backoff helper, the route quoter (`getRoute`), the
allowance-check-and-approve step, the bridge transaction builder
(`executeBridge`), the status-polling loop (`monitorTransaction`), and the
`bridge` orchestration of the React hook.  Network calls and on-chain reads
are modelled as oracles supplied by an environment value; each embedded
function returns, besides its result, the externally observable trace
(state writes, submitted transactions, callback invocations) that the
claims speak about.
-/

namespace SquidBridge

/-- Model of a JavaScript error code as inspected by the source: either a
numeric wallet code such as 4001 or a string code such as ECONNRESET. -/
inductive JsCode where
  | num (n : Nat)
  | str (s : String)
deriving DecidableEq, Repr

/-- Model of a thrown JavaScript error value as inspected by the source:
`error?.status` (an HTTP status number), `error?.code`, and `error.message`.
A plain `new Error(msg)` carries only a message. -/
structure JsError where
  status : Option Nat
  code : Option JsCode
  message : String
deriving DecidableEq, Repr

/-- Model of the thrown value when the source throws a plain `Error(msg)`. -/
def plainError (msg : String) : JsError :=
  { status := none, code := none, message := msg }

/-- The error object observed by a catch clause after `retryWithBackoff`
rethrows: the wrapped error itself, or (for `throw lastError` with
`lastError` still `undefined`, possible only with zero retries) a value with
no status, code or message. -/
def rethrownError (o : Option JsError) : JsError :=
  o.getD (plainError "")

/-- Transient-failure classification of `retryWithBackoff`
(squidService lines 26-28): rate limit (HTTP 429), connection reset, or
connection timeout. -/
def isRetryable (e : JsError) : Bool :=
  e.status == some 429 || e.code == some (JsCode.str "ECONNRESET")
    || e.code == some (JsCode.str "ETIMEDOUT")

/-- Result of a run of `retryWithBackoff`: the returned value or thrown error
(`Except.error none` models the `throw lastError` after the loop when the loop
never ran, i.e. `lastError` is still `undefined`), the number of calls made to
`fn`, and the cumulative delay in milliseconds spent sleeping between calls. -/
structure RetryResult (α : Type) where
  result : Except (Option JsError) α
  calls : Nat
  totalDelay : Nat
deriving Repr

/-- Loop body of `retryWithBackoff` (squidService lines 20-40).  The attempt
counter runs from `attempt` while `attempt < maxRetries`; `fuel` is the number
of remaining iterations (`maxRetries - attempt`), which makes the recursion
structural.  `fn i` is the outcome of the i-th call to the wrapped function. -/
def retryLoop {α : Type} (fn : Nat → Except JsError α) (maxRetries initialDelay : Nat) :
    Nat → Nat → Option JsError → RetryResult α
  | 0, _, lastError => ⟨Except.error lastError, 0, 0⟩
  | fuel + 1, attempt, _ =>
    match fn attempt with
    | Except.ok v => ⟨Except.ok v, 1, 0⟩
    | Except.error e =>
      if !isRetryable e || attempt == maxRetries - 1 then
        ⟨Except.error (some e), 1, 0⟩
      else
        let delay := initialDelay * 2 ^ attempt
        let rest := retryLoop fn maxRetries initialDelay fuel (attempt + 1) (some e)
        ⟨rest.result, rest.calls + 1, rest.totalDelay + delay⟩

/-- Model of `retryWithBackoff(fn, maxRetries, initialDelay)`
(squidService lines 13-43); the source's defaults are `maxRetries = 5`,
`initialDelay = 1000`. -/
def retryWithBackoff {α : Type} (fn : Nat → Except JsError α)
    (maxRetries initialDelay : Nat) : RetryResult α :=
  retryLoop fn maxRetries initialDelay maxRetries 0 none

/-- Model of a cross-chain transaction status value.  The monitor logic reads
only `squidTransactionStatus`; the identification fields are kept, while the
presentation-only metadata (chain details, timings, event logs) of the source's
`TransactionStatus` interface is omitted because no embedded function reads
it. -/
structure TransactionStatus where
  id : String
  status : String
  squidTransactionStatus : String
deriving DecidableEq, Repr

/-- Outcome of one call to `getTransactionStatus` as seen by the monitor loop:
either a parsed status object or a thrown transport/parse error. -/
inductive PollOutcome where
  | ok (s : TransactionStatus)
  | err (e : JsError)
deriving DecidableEq, Repr

/-- Terminal-status test of the monitor loop (squidService line 213). -/
def isTerminalStatus (s : String) : Bool :=
  ["success", "partial_success", "needs_gas", "failed"].contains s

/-- The monitoring-timeout failure (squidService line 229), an error distinct
from any returned `TransactionStatus` by construction of `Except`. -/
inductive MonitorError where
  | timeout
deriving DecidableEq, Repr

/-- Message of the thrown monitoring-timeout error. -/
def monitorTimeoutMessage : String :=
  "Transaction monitoring timeout - please check block explorer"

deriving instance DecidableEq for Except

/-- Observable outcome of `monitorTransaction`: the returned status or the
thrown timeout, the number of polls of the status endpoint performed, and the
statuses passed to the `onStatusUpdate` callback, in invocation order. -/
structure MonitorResult where
  result : Except MonitorError TransactionStatus
  polls : Nat
  updates : List TransactionStatus
deriving DecidableEq, Repr

/-- Loop body of `monitorTransaction` (squidService lines 204-226).  `attempts`
is the source's counter; `fuel = maxAttempts - attempts` makes the recursion
structural.  Each iteration performs exactly one poll, whose outcome is
`poll attempts`; a successful poll invokes the callback (recorded in
`updates`) before the terminal check; a thrown poll error is swallowed; both
the non-terminal and the error paths increment `attempts`. -/
def monitorLoop (poll : Nat → PollOutcome) : Nat → Nat → MonitorResult
  | 0, _ => ⟨Except.error MonitorError.timeout, 0, []⟩
  | fuel + 1, attempts =>
    match poll attempts with
    | PollOutcome.ok s =>
      if isTerminalStatus s.squidTransactionStatus then
        ⟨Except.ok s, 1, [s]⟩
      else
        let rest := monitorLoop poll fuel (attempts + 1)
        ⟨rest.result, rest.polls + 1, s :: rest.updates⟩
    | PollOutcome.err _ =>
      let rest := monitorLoop poll fuel (attempts + 1)
      ⟨rest.result, rest.polls + 1, rest.updates⟩

/-- The monitor's attempt bound (squidService line 202). -/
def maxAttempts : Nat := 60

/-- Model of `monitorTransaction` (squidService lines 190-230) over the
sequence of poll outcomes.  The initial grace delay and the fixed interval
between polls have no bearing on the claims and are not tracked; the query
parameters (transaction hash, request id, chain ids) are absorbed into the
poll oracle. -/
def monitorTransaction (poll : Nat → PollOutcome) : MonitorResult :=
  monitorLoop poll maxAttempts 0

/-- An outcome that does not return a terminal status: a non-terminal parsed
status or a thrown poll error. -/
def nonTerminalOutcome : PollOutcome → Bool
  | PollOutcome.ok s => !isTerminalStatus s.squidTransactionStatus
  | PollOutcome.err _ => true

/-- Statuses returned by the successful polls among `poll start`, ...,
`poll (start + len - 1)`, in poll order. -/
def okStatuses (poll : Nat → PollOutcome) (start len : Nat) : List TransactionStatus :=
  (List.range' start len).filterMap fun n =>
    match poll n with
    | PollOutcome.ok s => some s
    | PollOutcome.err _ => none

/-- A non-terminal (ongoing) polled status. -/
def pendingStatus : TransactionStatus :=
  ⟨"0xabc", "pending", "ongoing"⟩

/-- A terminal successful polled status. -/
def doneStatus : TransactionStatus :=
  ⟨"0xabc", "done", "success"⟩

/-- The poll sequence pending, pending, success (and success afterwards). -/
def pollPPS : Nat → PollOutcome :=
  fun n => if n < 2 then PollOutcome.ok pendingStatus else PollOutcome.ok doneStatus

/-- Chain id of the source chain (config CHAIN_IDS.BASE). -/
def CHAIN_ID_BASE : String := "8453"

/-- Chain id of the destination chain (config CHAIN_IDS.POLYGON). -/
def CHAIN_ID_POLYGON : String := "137"

/-- Source-chain USDC token address (config TOKENS.USDC_BASE). -/
def USDC_BASE : String := "0x833589fCD6eDb6E08f4c7C32D4f71b54bdA02913"

/-- Destination-chain USDC token address (config TOKENS.USDC_POLYGON). -/
def USDC_POLYGON : String := "0x3c499c542cEF5E3811e1192ce70d8cC03d5c3359"

/-- USDC decimals (config TOKEN_DECIMALS.USDC). -/
def TOKEN_DECIMALS_USDC : Nat := 6

/-- Integrator fee in basis points (config FEE_BASIS_POINTS, currently 0). -/
def FEE_BASIS_POINTS : Nat := 0

/-- Integrator fee recipient (config SQUID_CONFIG.feeRecipientAddress). -/
def feeRecipientAddress : String := "0xA42004A36aE97dfA691D7DF74db8FA9951dA2ed4"

/-- The transactionRequest of a route plan (types lines 27-35). -/
structure TransactionRequest where
  target : String
  data : String
  value : String
  gasLimit : String
  gasPrice : Option String
  maxFeePerGas : Option String
  maxPriorityFeePerGas : Option String
deriving DecidableEq, Repr

/-- Optional integrator-fee block of a route request (types lines 21-24). -/
structure CollectFees where
  integratorAddress : String
  fee : Nat
deriving DecidableEq, Repr

/-- Route request parameters (types lines 12-25). -/
structure RouteParams where
  fromChain : String
  toChain : String
  fromToken : String
  toToken : String
  fromAmount : String
  fromAddress : String
  toAddress : String
  slippage : Nat
  collectFees : Option CollectFees
deriving DecidableEq, Repr

/-- Token descriptor inside fee and gas cost entries (types lines 49-53). -/
structure TokenInfo where
  address : String
  symbol : String
  decimals : Nat
deriving DecidableEq, Repr

/-- One fee cost entry of a route estimate (types lines 46-54). -/
structure FeeCost where
  name : String
  amount : String
  token : TokenInfo
deriving DecidableEq, Repr

/-- One gas cost entry of a route estimate (types lines 55-66). -/
structure GasCost where
  kind : String
  amount : String
  gasPrice : String
  maxFeePerGas : String
  maxPriorityFeePerGas : String
  token : TokenInfo
deriving DecidableEq, Repr

/-- Route estimate (types lines 38-67).  The source's `type` field of a gas
cost entry is rendered `kind` because `type` is not a valid field name here. -/
structure Estimate where
  fromAmount : String
  toAmount : String
  toAmountMin : String
  sendAmount : String
  exchangeRate : String
  estimatedRouteDuration : Nat
  aggregatePriceImpact : String
  feeCosts : List FeeCost
  gasCosts : List GasCost
deriving DecidableEq, Repr

/-- A route plan (types lines 37-70).  `quoteId` is not declared in the
source's interface but is read by `getRoute` (`route.quoteId`), so it is
modelled as an optional extra field of the upstream value. -/
structure Route where
  estimate : Estimate
  transactionRequest : TransactionRequest
  params : RouteParams
  quoteId : Option String
deriving DecidableEq, Repr

/-- Return value of `getRoute` (types lines 72-75). -/
structure RouteResponse where
  route : Route
  requestId : String
deriving DecidableEq, Repr

/-- Parsed JSON body of a successful quote fetch; the `route` field may be
absent. -/
structure ApiResponse where
  route : Option Route
deriving DecidableEq, Repr

/-- Request-body construction of `getRoute` (squidService lines 49-58): the
caller's parameters, with the integrator-fee block added only when
`FEE_BASIS_POINTS > 0`. -/
def mkRequestParams (params : RouteParams) : RouteParams :=
  if FEE_BASIS_POINTS > 0 then
    { params with collectFees := some ⟨feeRecipientAddress, FEE_BASIS_POINTS⟩ }
  else params

/-- Model of `getRoute` (squidService lines 48-89): builds the request body,
performs the fetch under `retryWithBackoff` (the i-th attempt's outcome for a
given body is `fetch body i`; a non-success HTTP status is a thrown error),
then checks only that the `route` field is present.  The returned `requestId`
is the route's `quoteId`, defaulting to the empty string when absent or empty
(the source's `route.quoteId || ''`). -/
def getRoute (params : RouteParams)
    (fetch : RouteParams → Nat → Except JsError ApiResponse) :
    Except JsError RouteResponse :=
  match (retryWithBackoff (fetch (mkRequestParams params)) 5 1000).result with
  | Except.error e => Except.error (rethrownError e)
  | Except.ok response =>
    match response.route with
    | none => Except.error (plainError "Invalid API response: missing route")
    | some r => Except.ok ⟨r, r.quoteId.getD ""⟩

/-- JavaScript truthiness of an optional string: present and non-empty. -/
def truthyOpt : Option String → Bool
  | some s => !(s == "")
  | none => false

/-- The transaction object passed to `signer.sendTransaction`.  It has no
gasPrice field: `executeBridge` never forwards one.  The source's `to` field
is rendered `toAddr` because `to` is reserved here. -/
structure SentTransaction where
  toAddr : String
  data : String
  value : String
  gasLimit : String
  maxFeePerGas : Option String
  maxPriorityFeePerGas : Option String
deriving DecidableEq, Repr

/-- Model of `executeBridge` (squidService lines 126-142): the single
transaction submitted, built from the plan's transactionRequest.  The JS
spread `...(x && \x7bfield: x\x7d)` includes the field only when `x` is
truthy (present and non-empty). -/
def executeBridge (route : Route) : SentTransaction :=
  let txRequest := route.transactionRequest
  { toAddr := txRequest.target
    data := txRequest.data
    value := txRequest.value
    gasLimit := txRequest.gasLimit
    maxFeePerGas := if truthyOpt txRequest.maxFeePerGas then txRequest.maxFeePerGas else none
    maxPriorityFeePerGas :=
      if truthyOpt txRequest.maxPriorityFeePerGas then txRequest.maxPriorityFeePerGas else none }

/-- The allowance-check-and-approve step of `bridge` (useSquidBridge lines
167-186, calling `approveToken`, squidService lines 108-121), composed with
the standard fungible-token semantics of `approve(spender, amount)` declared
in the config's ERC20_ABI: a confirmed approval sets the on-chain allowance
for (token, owner, spender) to exactly `amount`.  Returns the allowance after
the step and the amounts of the approval transactions submitted by it. -/
def ensureAllowance (allowance required : Nat) : Nat × List Nat :=
  if allowance < required then (required, [required]) else (allowance, [])

/-- Value of a list of decimal digit characters, accumulator form; `none` on
any non-digit character. -/
def digitsToNatAux : List Char → Nat → Option Nat
  | [], acc => some acc
  | c :: cs, acc =>
    if c.isDigit then digitsToNatAux cs (acc * 10 + (c.toNat - 48)) else none

/-- Value of a non-empty list of decimal digit characters. -/
def decimalToNat? (cs : List Char) : Option Nat :=
  match cs with
  | [] => none
  | _ => digitsToNatAux cs 0

/-- Model of `BigInt(s)` for the strings that occur here: decimal digits give
the value, the empty string gives 0 (as in JavaScript), anything else
throws. -/
def bigIntOfString (s : String) : Option Nat :=
  match s.toList with
  | [] => some 0
  | cs => digitsToNatAux cs 0

/-- Split a character list at the dots. -/
def splitDot : List Char → List (List Char)
  | [] => [[]]
  | c :: cs =>
    let rest := splitDot cs
    if c == '.' then [] :: rest
    else
      match rest with
      | [] => [[c]]
      | h :: t => (c :: h) :: t

/-- Model of `ethers.parseUnits(s, decimals)` for non-negative decimal
strings: accepts a whole string or whole-dot-fraction with at most `decimals`
fractional digits, returning the amount in smallest units; `none` models the
thrown parse error. -/
def parseUnits (s : String) (decimals : Nat) : Option Nat :=
  match splitDot s.toList with
  | [whole] => (decimalToNat? whole).map (fun w => w * 10 ^ decimals)
  | [whole, frac] =>
    if frac.length ≤ decimals ∧ frac.length ≠ 0 then
      match decimalToNat? whole, decimalToNat? frac with
      | some w, some f => some (w * 10 ^ decimals + f * 10 ^ (decimals - frac.length))
      | _, _ => none
    else none
  | _ => none

/-- The hook's session state (types lines 100-106).  Its `status` union is
`idle`, `approving`, `bridging`, `monitoring`, `success`, `error`. -/
structure BridgeState where
  isLoading : Bool
  error : Option String
  status : String
  txHash : Option String
  route : Option Route
deriving DecidableEq, Repr

/-- The hook's initial state (useSquidBridge lines 22-28). -/
def initialBridgeState : BridgeState :=
  ⟨false, none, "idle", none, none⟩

/-- Externally observable actions of one `bridge` run: status writes to the
session state, the quote network call, the allowance read, and the submitted
approval and bridge transactions. -/
inductive BridgeEvent where
  | setStatus (s : String)
  | quoteCall
  | allowanceRead (v : Nat)
  | approveSubmit (token spender : String) (amount : Nat)
  | bridgeSubmit (tx : SentTransaction)
  | txConfirmed
deriving DecidableEq, Repr

/-- The external world of one `bridge` run: the hook's wallet state, the
outcome of each network call and on-chain interaction.  `quoteFetch` maps the
request body and the attempt number to the fetch outcome; `allowance` is the
current on-chain allowance for (USDC_BASE, wallet, plan target);
`approveOutcome`, `submitOutcome` (yielding the transaction hash) and
`confirmOutcome` are the approval, submission and mining outcomes; `poll`
drives the status monitor. -/
structure BridgeEnv where
  walletAddress : Option String
  ethereumAvailable : Bool
  quoteFetch : RouteParams → Nat → Except JsError ApiResponse
  allowance : Nat
  approveOutcome : Except JsError Unit
  submitOutcome : Except JsError String
  confirmOutcome : Except JsError Unit
  poll : Nat → PollOutcome

/-- Observable outcome of one `bridge` run: the final session state, the
event trace, and the returned value or rethrown error. -/
structure BridgeRun where
  finalState : BridgeState
  trace : List BridgeEvent
  result : Except JsError (String × TransactionStatus)
deriving DecidableEq, Repr

/-- The catch clause's message selection (useSquidBridge lines 222-231). -/
def bridgeErrorMessage (e : JsError) : String :=
  if e.code == some (JsCode.num 4001) then "Transaction rejected by user"
  else if e.code == some (JsCode.str "INSUFFICIENT_FUNDS") then
    "Insufficient funds for transaction"
  else if !(e.message == "") then e.message
  else "Bridge transaction failed"

/-- The catch clause of `bridge` (useSquidBridge lines 222-241): record the
message, mark the session failed, rethrow the original error. -/
def catchRun (st : BridgeState) (tr : List BridgeEvent) (e : JsError) : BridgeRun :=
  ⟨{ st with isLoading := false, error := some (bridgeErrorMessage e), status := "error" },
    tr ++ [BridgeEvent.setStatus "error"],
    Except.error e⟩

/-- The route request built by `bridge` (useSquidBridge lines 153-162). -/
def bridgeRouteParams (walletAddress : String) (amountInWei : Nat) : RouteParams :=
  { fromChain := CHAIN_ID_BASE
    toChain := CHAIN_ID_POLYGON
    fromToken := USDC_BASE
    toToken := USDC_POLYGON
    fromAmount := toString amountInWei
    fromAddress := walletAddress
    toAddress := walletAddress
    slippage := 1
    collectFees := none }

/-- Steps 3 and 4 of `bridge` (useSquidBridge lines 188-221): submit the
bridge transaction built by `executeBridge`, wait for it to be mined, then
monitor the cross-chain status; a final status other than success is thrown.
The monitor's query arguments (hash, request id, chain ids) are absorbed into
the environment's poll oracle. -/
def bridgeExecuteAndMonitor (env : BridgeEnv) (st : BridgeState) (tr : List BridgeEvent)
    (route : Route) : BridgeRun :=
  let st := { st with status := "bridging" }
  let tr := tr ++ [BridgeEvent.setStatus "bridging"]
  match env.submitOutcome with
  | Except.error e => catchRun st tr e
  | Except.ok txHash =>
    let tr := tr ++ [BridgeEvent.bridgeSubmit (executeBridge route)]
    let st := { st with txHash := some txHash }
    match env.confirmOutcome with
    | Except.error e => catchRun st tr e
    | Except.ok _ =>
      let tr := tr ++ [BridgeEvent.txConfirmed]
      let st := { st with status := "monitoring" }
      let tr := tr ++ [BridgeEvent.setStatus "monitoring"]
      match (monitorTransaction env.poll).result with
      | Except.error MonitorError.timeout => catchRun st tr (plainError monitorTimeoutMessage)
      | Except.ok finalStatus =>
        if finalStatus.squidTransactionStatus == "success" then
          ⟨{ st with status := "success", isLoading := false },
            tr ++ [BridgeEvent.setStatus "success"],
            Except.ok (txHash, finalStatus)⟩
        else
          catchRun st tr
            (plainError ("Bridge failed with status: " ++ finalStatus.squidTransactionStatus))

/-- Model of the hook's `bridge` function (useSquidBridge lines 140-242).
The wallet guard (lines 141-143) throws before any state write; the first
state write resets the session to loading/idle regardless of its previous
status — there is no single-flight guard in the source.  Steps: quote
(`getRoute`), allowance check and conditional approval for exactly the plan's
`params.fromAmount`, execution and confirmation, then monitoring
(`bridgeExecuteAndMonitor`). -/
def bridge (env : BridgeEnv) (st : BridgeState) (amount : String) : BridgeRun :=
  match env.walletAddress, env.ethereumAvailable with
  | none, _ => ⟨st, [], Except.error (plainError "Wallet not connected")⟩
  | some _, false => ⟨st, [], Except.error (plainError "Wallet not connected")⟩
  | some walletAddress, true =>
    let st := { st with isLoading := true, error := none, status := "idle" }
    let tr := [BridgeEvent.setStatus "idle"]
    let st := { st with status := "idle" }
    let tr := tr ++ [BridgeEvent.setStatus "idle"]
    match parseUnits amount TOKEN_DECIMALS_USDC with
    | none => catchRun st tr (plainError "invalid decimal value")
    | some amountInWei =>
      let tr := tr ++ [BridgeEvent.quoteCall]
      match getRoute (bridgeRouteParams walletAddress amountInWei) env.quoteFetch with
      | Except.error e => catchRun st tr e
      | Except.ok rr =>
        let route := rr.route
        let st := { st with route := some route }
        let st := { st with status := "approving" }
        let tr := tr ++ [BridgeEvent.setStatus "approving"]
        let tr := tr ++ [BridgeEvent.allowanceRead env.allowance]
        match bigIntOfString route.params.fromAmount with
        | none => catchRun st tr (plainError "Cannot convert to a BigInt")
        | some amountBigInt =>
          if env.allowance < amountBigInt then
            match env.approveOutcome with
            | Except.error e => catchRun st tr e
            | Except.ok _ =>
              let tr := tr ++
                [BridgeEvent.approveSubmit USDC_BASE route.transactionRequest.target amountBigInt]
              bridgeExecuteAndMonitor env st tr route
          else
            bridgeExecuteAndMonitor env st tr route

/-- The session statuses written during a run, in write order. -/
def statusWrites (tr : List BridgeEvent) : List String :=
  tr.filterMap fun e =>
    match e with
    | BridgeEvent.setStatus s => some s
    | _ => none

/-- The approval transactions submitted during a run: (token, spender,
amount), in submission order. -/
def approvalsOf (tr : List BridgeEvent) : List (String × String × Nat) :=
  tr.filterMap fun e =>
    match e with
    | BridgeEvent.approveSubmit t sp a => some (t, sp, a)
    | _ => none

/-- The bridge transactions submitted during a run, in submission order. -/
def bridgeSubmissions (tr : List BridgeEvent) : List SentTransaction :=
  tr.filterMap fun e =>
    match e with
    | BridgeEvent.bridgeSubmit tx => some tx
    | _ => none

/-- The events strictly before the first event satisfying `p`. -/
def eventsBefore (tr : List BridgeEvent) (p : BridgeEvent → Bool) : List BridgeEvent :=
  tr.takeWhile fun e => !(p e)

/-- Test for a bridge-submission event. -/
def isBridgeSubmitEvent : BridgeEvent → Bool
  | BridgeEvent.bridgeSubmit _ => true
  | _ => false

/-- Test for the write of the `monitoring` status. -/
def isMonitoringWrite : BridgeEvent → Bool
  | BridgeEvent.setStatus s => s == "monitoring"
  | _ => false

end SquidBridge

namespace SquidBridge

/-- An estimate literal for concrete scenarios. -/
def sampleEstimate : Estimate :=
  ⟨"10000000", "9990000", "9900000", "10000000", "0.999", 120, "0.01", [], []⟩

/-- A route-plan transactionRequest with all fields populated except the
optional gas-price ones. -/
def sampleRequest : TransactionRequest :=
  ⟨"0xce16F69375520ab01377ce7B88f5BA8C48F8D666", "0xdeadbeef", "0", "500000",
    none, none, none⟩

/-- The request parameters echoed inside a returned plan for a 10 USDC
transfer. -/
def sampleParams : RouteParams :=
  bridgeRouteParams "0x1111111111111111111111111111111111111111" 10000000

/-- A well-formed route plan for a 10 USDC transfer. -/
def happyRoute : Route :=
  ⟨sampleEstimate, sampleRequest, sampleParams, some "q-1"⟩

/-- An environment in which every step of the scenario of C2 succeeds:
wallet connected, quote answered on the first attempt with `happyRoute`,
current allowance 0, approval, submission and confirmation succeed, and the
first poll reports terminal success. -/
def happyEnv : BridgeEnv :=
  { walletAddress := some "0x1111111111111111111111111111111111111111"
    ethereumAvailable := true
    quoteFetch := fun _ _ => Except.ok ⟨some happyRoute⟩
    allowance := 0
    approveOutcome := Except.ok ()
    submitOutcome := Except.ok "0xhash"
    confirmOutcome := Except.ok ()
    poll := fun _ => PollOutcome.ok doneStatus }

/-- A session in a non-idle, non-terminal state: an attempt in flight. -/
def busyState : BridgeState :=
  ⟨true, none, "approving", none, none⟩

/-- A route plan whose transactionRequest has an empty target. -/
def emptyTargetRoute : Route :=
  ⟨sampleEstimate, ⟨"", "0xdeadbeef", "0", "500000", none, none, none⟩,
    sampleParams, some "q-1"⟩

/-- A transactionRequest carrying a legacy gasPrice. -/
def gasPriceRequest : TransactionRequest :=
  ⟨"0xce16F69375520ab01377ce7B88f5BA8C48F8D666", "0xdeadbeef", "0", "500000",
    some "1000000000", none, none⟩

/-- The same transactionRequest without the gasPrice. -/
def noGasPriceRequest : TransactionRequest :=
  ⟨"0xce16F69375520ab01377ce7B88f5BA8C48F8D666", "0xdeadbeef", "0", "500000",
    none, none, none⟩

/-- A route plan whose transactionRequest carries a legacy gasPrice. -/
def gasPriceRoute : Route :=
  ⟨sampleEstimate, gasPriceRequest, sampleParams, some "q-1"⟩

/-- The same route plan without the gasPrice. -/
def noGasPriceRoute : Route :=
  ⟨sampleEstimate, noGasPriceRequest, sampleParams, some "q-1"⟩

/-- Number of calls made by the retry loop never exceeds its fuel. -/
theorem retryLoop_calls_le {α : Type} (fn : Nat → Except JsError α)
    (maxRetries initialDelay : Nat) :
    ∀ (fuel attempt : Nat) (le : Option JsError),
      (retryLoop fn maxRetries initialDelay fuel attempt le).calls ≤ fuel := by
  intro fuel
  induction fuel with
  | zero => intro attempt le; simp [retryLoop]
  | succ n ih =>
    intro attempt le
    simp only [retryLoop]
    cases h : fn attempt with
    | ok v => simp
    | error e =>
      by_cases hc : (!isRetryable e || attempt == maxRetries - 1) = true
      · simp [hc]
      · simp only [hc]
        simp only [Bool.not_eq_true] at hc
        simp [hc]
        exact ih (attempt + 1) (some e)

/-- When the first call succeeds, the retry wrapper returns it at once. -/
theorem retryWithBackoff_first_ok {α : Type} (fn : Nat → Except JsError α) (v : α)
    (h : fn 0 = Except.ok v) :
    retryWithBackoff fn 5 1000 = ⟨Except.ok v, 1, 0⟩ := by
  simp [retryWithBackoff, retryLoop, h]

/-- The monitor loop performs at most `fuel` polls. -/
theorem monitorLoop_polls_le (poll : Nat → PollOutcome) :
    ∀ (fuel attempts : Nat), (monitorLoop poll fuel attempts).polls ≤ fuel := by
  intro fuel
  induction fuel with
  | zero => intro attempts; simp [monitorLoop]
  | succ n ih =>
    intro attempts
    simp only [monitorLoop]
    cases h : poll attempts with
    | ok s =>
      by_cases ht : isTerminalStatus s.squidTransactionStatus = true
      · simp [ht]
      · simp only [Bool.not_eq_true] at ht
        simp [ht]
        exact ih (attempts + 1)
    | err e =>
      simp
      exact ih (attempts + 1)

/-- The monitor loop either returns a terminal status or times out. -/
theorem monitorLoop_result (poll : Nat → PollOutcome) :
    ∀ (fuel attempts : Nat),
      (∃ s, (monitorLoop poll fuel attempts).result = Except.ok s ∧
        isTerminalStatus s.squidTransactionStatus = true) ∨
      (monitorLoop poll fuel attempts).result = Except.error MonitorError.timeout := by
  intro fuel
  induction fuel with
  | zero => intro attempts; right; simp [monitorLoop]
  | succ n ih =>
    intro attempts
    simp only [monitorLoop]
    cases h : poll attempts with
    | ok s =>
      by_cases ht : isTerminalStatus s.squidTransactionStatus = true
      · left; exact ⟨s, by simp [ht], ht⟩
      · simp only [Bool.not_eq_true] at ht
        simpa [ht] using ih (attempts + 1)
    | err e =>
      simpa using ih (attempts + 1)

/-- When every poll in the loop's window is non-terminal, the loop consumes all
its fuel, one poll per unit, and times out. -/
theorem monitorLoop_nonterminal (poll : Nat → PollOutcome) :
    ∀ (fuel attempts : Nat),
      (∀ n, attempts ≤ n → n < attempts + fuel → nonTerminalOutcome (poll n) = true) →
      (monitorLoop poll fuel attempts).result = Except.error MonitorError.timeout ∧
      (monitorLoop poll fuel attempts).polls = fuel := by
  intro fuel
  induction fuel with
  | zero => intro attempts _; simp [monitorLoop]
  | succ n ih =>
    intro attempts h
    have hcur : nonTerminalOutcome (poll attempts) = true :=
      h attempts le_rfl (by omega)
    have hrest :
        (monitorLoop poll n (attempts + 1)).result = Except.error MonitorError.timeout ∧
        (monitorLoop poll n (attempts + 1)).polls = n := by
      apply ih
      intro m hm1 hm2
      exact h m (by omega) (by omega)
    simp only [monitorLoop]
    cases hp : poll attempts with
    | ok s =>
      rw [hp] at hcur
      simp only [nonTerminalOutcome, Bool.not_eq_eq_eq_not, Bool.not_true] at hcur
      simp [hcur, hrest.1, hrest.2]
    | err e =>
      simp [hrest.1, hrest.2]

/-- The callback receives exactly the statuses of the successful polls among
the polls the loop performed, in poll order. -/
theorem monitorLoop_updates (poll : Nat → PollOutcome) :
    ∀ (fuel attempts : Nat),
      (monitorLoop poll fuel attempts).updates =
        okStatuses poll attempts (monitorLoop poll fuel attempts).polls := by
  intro fuel
  induction fuel with
  | zero => intro attempts; simp [monitorLoop, okStatuses]
  | succ n ih =>
    intro attempts
    simp only [monitorLoop]
    cases hp : poll attempts with
    | ok s =>
      by_cases ht : isTerminalStatus s.squidTransactionStatus = true
      · simp [ht, okStatuses, List.range', hp]
      · simp only [Bool.not_eq_true] at ht
        simp only [ht, Bool.false_eq_true, if_false]
        simp [okStatuses, List.range', hp]
        simpa [okStatuses] using ih (attempts + 1)
    | err e =>
      simp [okStatuses, List.range', hp]
      simpa [okStatuses] using ih (attempts + 1)

/-- When the first fetch succeeds with a response carrying a route, `getRoute`
returns that route with the quote id as request id. -/
theorem getRoute_first_ok (params : RouteParams)
    (fetch : RouteParams → Nat → Except JsError ApiResponse) (r : Route)
    (h : fetch (mkRequestParams params) 0 = Except.ok ⟨some r⟩) :
    getRoute params fetch = Except.ok ⟨r, r.quoteId.getD ""⟩ := by
  simp [getRoute, retryWithBackoff_first_ok _ _ h]

/-- The execute-and-monitor phase appends to the given trace one of exactly
three shapes: submission failed; submitted then confirmation failed; or
submitted, confirmed, monitoring entered, ending in an error or success
write. -/
theorem bXM_trace_cases (env : BridgeEnv) (st : BridgeState) (tr : List BridgeEvent)
    (route : Route) :
    (bridgeExecuteAndMonitor env st tr route).trace =
        tr ++ [BridgeEvent.setStatus "bridging", BridgeEvent.setStatus "error"] ∨
    (bridgeExecuteAndMonitor env st tr route).trace =
        tr ++ [BridgeEvent.setStatus "bridging",
               BridgeEvent.bridgeSubmit (executeBridge route), BridgeEvent.setStatus "error"] ∨
    ∃ last, (last = BridgeEvent.setStatus "error" ∨ last = BridgeEvent.setStatus "success") ∧
      (bridgeExecuteAndMonitor env st tr route).trace =
        tr ++ [BridgeEvent.setStatus "bridging",
               BridgeEvent.bridgeSubmit (executeBridge route), BridgeEvent.txConfirmed,
               BridgeEvent.setStatus "monitoring", last] := by
  unfold bridgeExecuteAndMonitor
  rcases hs : env.submitOutcome with e | txHash
  · left; simp [hs, catchRun]
  · rcases hc : env.confirmOutcome with e | u
    · right; left; simp [hs, hc, catchRun]
    · rcases hm : (monitorTransaction env.poll).result with me | fs
      · cases me
        right; right
        exact ⟨BridgeEvent.setStatus "error", Or.inl rfl, by simp [hs, hc, hm, catchRun]⟩
      · by_cases hb : (fs.squidTransactionStatus == "success") = true
        · right; right
          exact ⟨BridgeEvent.setStatus "success", Or.inr rfl, by simp [hs, hc, hm, hb, catchRun]⟩
        · right; right
          refine ⟨BridgeEvent.setStatus "error", Or.inl rfl, ?_⟩
          simp only [Bool.not_eq_true] at hb
          simp [hs, hc, hm, hb, catchRun]

/-- The execute-and-monitor phase never changes the stored route. -/
theorem bXM_route_preserved (env : BridgeEnv) (st : BridgeState) (tr : List BridgeEvent)
    (route : Route) :
    (bridgeExecuteAndMonitor env st tr route).finalState.route = st.route := by
  unfold bridgeExecuteAndMonitor
  rcases hs : env.submitOutcome with e | txHash
  · simp [hs, catchRun]
  · rcases hc : env.confirmOutcome with e | u
    · simp [hs, hc, catchRun]
    · rcases hm : (monitorTransaction env.poll).result with me | fs
      · cases me; simp [hs, hc, hm, catchRun]
      · by_cases hb : (fs.squidTransactionStatus == "success") = true
        · simp [hs, hc, hm, hb, catchRun]
        · simp only [Bool.not_eq_true] at hb
          simp [hs, hc, hm, hb, catchRun]

/-- Complete case analysis of a `bridge` run's trace: either the run fails
before the execute step, with no bridge submission and no monitoring write, or
it reaches the execute step with a stored route, a parsed required amount, and
a prefix recording the allowance read — extended by the approval exactly when
the allowance was insufficient — followed by one of the three
execute-and-monitor shapes. -/
theorem bridge_cases (env : BridgeEnv) (st : BridgeState) (amount : String) :
    ((∀ tx, BridgeEvent.bridgeSubmit tx ∉ (bridge env st amount).trace) ∧
      BridgeEvent.setStatus "monitoring" ∉ (bridge env st amount).trace) ∨
    ∃ route req pre,
      (bridge env st amount).finalState.route = some route ∧
      bigIntOfString route.params.fromAmount = some req ∧
      ((req ≤ env.allowance ∧
         pre = [BridgeEvent.setStatus "idle", BridgeEvent.setStatus "idle",
                BridgeEvent.quoteCall, BridgeEvent.setStatus "approving",
                BridgeEvent.allowanceRead env.allowance]) ∨
       (env.allowance < req ∧
         pre = [BridgeEvent.setStatus "idle", BridgeEvent.setStatus "idle",
                BridgeEvent.quoteCall, BridgeEvent.setStatus "approving",
                BridgeEvent.allowanceRead env.allowance,
                BridgeEvent.approveSubmit USDC_BASE route.transactionRequest.target req])) ∧
      ((bridge env st amount).trace =
          pre ++ [BridgeEvent.setStatus "bridging", BridgeEvent.setStatus "error"] ∨
       (bridge env st amount).trace =
          pre ++ [BridgeEvent.setStatus "bridging",
                  BridgeEvent.bridgeSubmit (executeBridge route),
                  BridgeEvent.setStatus "error"] ∨
       ∃ last, (last = BridgeEvent.setStatus "error" ∨ last = BridgeEvent.setStatus "success") ∧
         (bridge env st amount).trace =
           pre ++ [BridgeEvent.setStatus "bridging",
                   BridgeEvent.bridgeSubmit (executeBridge route), BridgeEvent.txConfirmed,
                   BridgeEvent.setStatus "monitoring", last]) := by
  unfold bridge
  rcases hwa : env.walletAddress with _ | w
  · left; simp [hwa]
  rcases hea : env.ethereumAvailable with _ | _
  · left; simp [hwa, hea]
  simp only [hwa, hea]
  rcases hp : parseUnits amount TOKEN_DECIMALS_USDC with _ | amountInWei
  · left; simp [hp, catchRun]
  simp only [hp]
  rcases hq : getRoute (bridgeRouteParams w amountInWei) env.quoteFetch with e | rr
  · left; simp [hq, catchRun]
  simp only [hq]
  rcases hbi : bigIntOfString rr.route.params.fromAmount with _ | req
  · left; simp [hbi, catchRun]
  simp only [hbi]
  by_cases hal : env.allowance < req
  · rw [if_pos hal]
    rcases hap : env.approveOutcome with e | u
    · left; simp [hap, catchRun]
    simp only [hap]
    right
    refine ⟨rr.route, req, _, ?_, hbi, Or.inr ⟨hal, rfl⟩, ?_⟩
    · rw [bXM_route_preserved]
    · exact bXM_trace_cases env _ _ rr.route
  · rw [if_neg hal]
    right
    refine ⟨rr.route, req, _, ?_, hbi, Or.inl ⟨Nat.le_of_not_lt hal, rfl⟩, ?_⟩
    · rw [bXM_route_preserved]
    · exact bXM_trace_cases env _ _ rr.route

/-- The execute-and-monitor phase's trace and result do not depend on the
session state passed in. -/
theorem bXM_state_irrelevant (env : BridgeEnv) (st st' : BridgeState)
    (tr : List BridgeEvent) (route : Route) :
    (bridgeExecuteAndMonitor env st' tr route).trace =
      (bridgeExecuteAndMonitor env st tr route).trace ∧
    (bridgeExecuteAndMonitor env st' tr route).result =
      (bridgeExecuteAndMonitor env st tr route).result := by
  unfold bridgeExecuteAndMonitor
  rcases hs : env.submitOutcome with e | txHash
  · simp [hs, catchRun]
  rcases hc : env.confirmOutcome with e | u
  · simp [hs, hc, catchRun]
  rcases hm : (monitorTransaction env.poll).result with me | fs
  · cases me; simp [hs, hc, hm, catchRun]
  by_cases hb : (fs.squidTransactionStatus == "success") = true
  · simp [hs, hc, hm, hb, catchRun]
  · simp only [Bool.not_eq_true] at hb
    simp [hs, hc, hm, hb, catchRun]

/-- A `bridge` run's trace and result do not depend on the session state it
starts from: the hook reads nothing from the previous session. -/
theorem bridge_state_irrelevant (env : BridgeEnv) (st st' : BridgeState) (amount : String) :
    (bridge env st' amount).trace = (bridge env st amount).trace ∧
    (bridge env st' amount).result = (bridge env st amount).result := by
  unfold bridge
  rcases hwa : env.walletAddress with _ | w
  · simp [hwa]
  rcases hea : env.ethereumAvailable with _ | _
  · simp [hwa, hea]
  simp only [hwa, hea]
  rcases hp : parseUnits amount TOKEN_DECIMALS_USDC with _ | amountInWei
  · simp [hp, catchRun]
  simp only [hp]
  rcases hq : getRoute (bridgeRouteParams w amountInWei) env.quoteFetch with e | rr
  · simp [hq, catchRun]
  simp only [hq]
  rcases hbi : bigIntOfString rr.route.params.fromAmount with _ | req
  · simp [hbi, catchRun]
  simp only [hbi]
  by_cases hal : env.allowance < req
  · simp only [if_pos hal]
    rcases hap : env.approveOutcome with e | u
    · simp [hap, hal, catchRun]
    simp only [hap]
    exact bXM_state_irrelevant env _ _ _ rr.route
  · simp only [if_neg hal]
    exact bXM_state_irrelevant env _ _ _ rr.route

/-- C3: `retryWithBackoff(fn, maxRetries=5, initialDelay=1000)` calls `fn` at
most 5 times; if `fn` fails with a transient-classified error (HTTP 429,
ECONNRESET, or ETIMEDOUT) on the first 4 calls and then succeeds, the success
value is returned and the cumulative waiting is 1000+2000+4000+8000 = 15000 ms
(delay = initialDelay * 2^attempt); if `fn` fails transiently on all 5 calls,
the 5th error is raised with no 6th attempt; and a failure not classified
transient is raised immediately on its first occurrence with no retry and no
delay. -/
theorem C3_retryWithBackoff_policy :
    (∀ (fn : Nat → Except JsError Nat),
       (retryWithBackoff fn 5 1000).calls ≤ 5) ∧
    (∀ (fn : Nat → Except JsError Nat) (v : Nat),
       (∀ i, i < 4 → ∃ e, fn i = Except.error e ∧ isRetryable e = true) →
       fn 4 = Except.ok v →
       retryWithBackoff fn 5 1000 = ⟨Except.ok v, 5, 15000⟩) ∧
    (∀ (fn : Nat → Except JsError Nat) (e4 : JsError),
       (∀ i, i < 4 → ∃ e, fn i = Except.error e ∧ isRetryable e = true) →
       fn 4 = Except.error e4 → isRetryable e4 = true →
       retryWithBackoff fn 5 1000 = ⟨Except.error (some e4), 5, 15000⟩) ∧
    (∀ (fn : Nat → Except JsError Nat) (e : JsError),
       fn 0 = Except.error e → isRetryable e = false →
       retryWithBackoff fn 5 1000 = ⟨Except.error (some e), 1, 0⟩) := by
  refine ⟨?_, ?_, ?_, ?_⟩
  · intro fn
    exact retryLoop_calls_le fn 5 1000 5 0 none
  · intro fn v htrans h4
    obtain ⟨e0, h0, r0⟩ := htrans 0 (by norm_num)
    obtain ⟨e1, h1, r1⟩ := htrans 1 (by norm_num)
    obtain ⟨e2, h2, r2⟩ := htrans 2 (by norm_num)
    obtain ⟨e3, h3, r3⟩ := htrans 3 (by norm_num)
    simp [retryWithBackoff, retryLoop, h0, h1, h2, h3, h4, r0, r1, r2, r3]
  · intro fn e4 htrans h4 r4
    obtain ⟨e0, h0, r0⟩ := htrans 0 (by norm_num)
    obtain ⟨e1, h1, r1⟩ := htrans 1 (by norm_num)
    obtain ⟨e2, h2, r2⟩ := htrans 2 (by norm_num)
    obtain ⟨e3, h3, r3⟩ := htrans 3 (by norm_num)
    simp [retryWithBackoff, retryLoop, h0, h1, h2, h3, h4, r0, r1, r2, r3, r4]
  · intro fn e h0 r0
    simp [retryWithBackoff, retryLoop, h0, r0]

/-- C5: for every poll-outcome sequence in which no poll ever returns a
terminal status, `monitorTransaction` raises the monitoring-timeout error — an
error value, distinct by type from any returned transfer status — after
exactly `maxAttempts = 60` polls, no more, no fewer. -/
theorem C5_monitor_timeout_after_exactly_60_polls (poll : Nat → PollOutcome)
    (h : ∀ n, n < maxAttempts → nonTerminalOutcome (poll n) = true) :
    (monitorTransaction poll).result = Except.error MonitorError.timeout ∧
    (monitorTransaction poll).polls = maxAttempts ∧ maxAttempts = 60 := by
  have hmain := monitorLoop_nonterminal poll maxAttempts 0 (fun n _ h2 => h n (by omega))
  exact ⟨hmain.1, hmain.2, rfl⟩

/-- Witness for C5 at the concrete always-pending poll sequence. -/
theorem C5_monitor_timeout_after_exactly_60_polls_witness :
    (monitorTransaction (fun _ => PollOutcome.ok pendingStatus)).result =
      Except.error MonitorError.timeout ∧
    (monitorTransaction (fun _ => PollOutcome.ok pendingStatus)).polls = maxAttempts ∧
    maxAttempts = 60 :=
  C5_monitor_timeout_after_exactly_60_polls (fun _ => PollOutcome.ok pendingStatus) (by decide)

/-- C8: `monitorTransaction` invokes the callback with the polled status on
every successful poll, terminal or not, in poll order (the updates are exactly
the successful polls' statuses among the polls performed); in particular the
poll sequence pending, pending, success returns a status with
`squidTransactionStatus = "success"` and invokes the callback exactly 3
times. -/
theorem C8_monitor_updates_every_successful_poll :
    (∀ (poll : Nat → PollOutcome),
       (monitorTransaction poll).updates =
         okStatuses poll 0 (monitorTransaction poll).polls) ∧
    (monitorTransaction pollPPS).result = Except.ok doneStatus ∧
    doneStatus.squidTransactionStatus = "success" ∧
    (monitorTransaction pollPPS).updates = [pendingStatus, pendingStatus, doneStatus] ∧
    (monitorTransaction pollPPS).updates.length = 3 := by
  refine ⟨fun poll => monitorLoop_updates poll maxAttempts 0, ?_, ?_, ?_, ?_⟩ <;> decide

/-- C10: `monitorTransaction` always terminates after at most
`maxAttempts = 60` polls: it either returns a terminal status or raises the
timeout error, and an iteration whose poll throws consumes the same attempt
budget as a successful non-terminal poll, so even when every single poll
throws there are exactly 60 polls followed by the timeout error. -/
theorem C10_monitor_bounded_termination (poll : Nat → PollOutcome) :
    (monitorTransaction poll).polls ≤ maxAttempts ∧
    ((∃ s, (monitorTransaction poll).result = Except.ok s ∧
        isTerminalStatus s.squidTransactionStatus = true) ∨
      (monitorTransaction poll).result = Except.error MonitorError.timeout) ∧
    ((∀ n, n < maxAttempts → ∃ e, poll n = PollOutcome.err e) →
      (monitorTransaction poll).result = Except.error MonitorError.timeout ∧
      (monitorTransaction poll).polls = maxAttempts) := by
  refine ⟨monitorLoop_polls_le poll maxAttempts 0, monitorLoop_result poll maxAttempts 0, ?_⟩
  intro h
  exact monitorLoop_nonterminal poll maxAttempts 0 (fun n _ h2 => by
    obtain ⟨e, he⟩ := h n (by omega)
    simp [nonTerminalOutcome, he])

/-- C1 counterexample: starting `bridge` while the session is in the non-idle,
non-terminal state `approving` is not rejected: no busy error is raised — the
call returns successfully — the quote network call is made, and the in-flight
session state is overwritten rather than left unchanged. -/
theorem C1_counterexample_busy_call_not_rejected :
    busyState.status = "approving" ∧
    (bridge happyEnv busyState "10").trace.contains BridgeEvent.quoteCall = true ∧
    (bridge happyEnv busyState "10").result = Except.ok ("0xhash", doneStatus) ∧
    (bridge happyEnv busyState "10").finalState ≠ busyState := by decide

/-- C1 amended: the hook has no single-flight guard and no busy error exists
in the code.  Whenever the wallet is connected, a `bridge` call in ANY session
state — non-idle, non-terminal ones included — proceeds identically: it
overwrites the session, writing status idle twice, its trace and result are
entirely independent of the previous session state, and when the amount
parses it goes on to make the quote network call. -/
theorem C1_bridge_lacks_single_flight_guard (env : BridgeEnv) (st : BridgeState)
    (amount : String) (w : String)
    (hw : env.walletAddress = some w) (he : env.ethereumAvailable = true) :
    (bridge env st amount).trace.take 2 =
      [BridgeEvent.setStatus "idle", BridgeEvent.setStatus "idle"] ∧
    (∀ st' : BridgeState, (bridge env st' amount).trace = (bridge env st amount).trace ∧
       (bridge env st' amount).result = (bridge env st amount).result) ∧
    (parseUnits amount TOKEN_DECIMALS_USDC ≠ none →
      BridgeEvent.quoteCall ∈ (bridge env st amount).trace) := by
  have hmain :
      (bridge env st amount).trace.take 2 =
        [BridgeEvent.setStatus "idle", BridgeEvent.setStatus "idle"] ∧
      (parseUnits amount TOKEN_DECIMALS_USDC ≠ none →
        BridgeEvent.quoteCall ∈ (bridge env st amount).trace) := by
    unfold bridge
    simp only [hw, he]
    rcases hp : parseUnits amount TOKEN_DECIMALS_USDC with _ | amt
    · exact ⟨by simp [catchRun], fun hne => absurd rfl hne⟩
    simp only []
    rcases hq : getRoute (bridgeRouteParams w amt) env.quoteFetch with e | rr
    · simp only [hq]
      exact ⟨by simp [catchRun], fun _ => by simp [catchRun]⟩
    simp only [hq]
    rcases hbi : bigIntOfString rr.route.params.fromAmount with _ | req
    · simp only [hbi]
      exact ⟨by simp [catchRun], fun _ => by simp [catchRun]⟩
    simp only [hbi]
    by_cases hal : env.allowance < req
    · simp only [if_pos hal]
      rcases hap : env.approveOutcome with e | u
      · simp only [hap]
        exact ⟨by simp [catchRun], fun _ => by simp [catchRun]⟩
      simp only [hap]
      rcases bXM_trace_cases env
          { st with isLoading := true, error := none, status := "approving",
                    route := some rr.route }
          ([BridgeEvent.setStatus "idle"] ++ [BridgeEvent.setStatus "idle"] ++
            [BridgeEvent.quoteCall] ++ [BridgeEvent.setStatus "approving"] ++
            [BridgeEvent.allowanceRead env.allowance] ++
            [BridgeEvent.approveSubmit USDC_BASE rr.route.transactionRequest.target req])
          rr.route with h | h | ⟨last, _, h⟩ <;>
        rw [h] <;> exact ⟨by simp, fun _ => by simp⟩
    · simp only [if_neg hal]
      rcases bXM_trace_cases env
          { st with isLoading := true, error := none, status := "approving",
                    route := some rr.route }
          ([BridgeEvent.setStatus "idle"] ++ [BridgeEvent.setStatus "idle"] ++
            [BridgeEvent.quoteCall] ++ [BridgeEvent.setStatus "approving"] ++
            [BridgeEvent.allowanceRead env.allowance])
          rr.route with h | h | ⟨last, _, h⟩ <;>
        rw [h] <;> exact ⟨by simp, fun _ => by simp⟩
  exact ⟨hmain.1, fun st' => bridge_state_irrelevant env st st' amount, hmain.2⟩

/-- Witness for C1 at the concrete busy session and all-succeeding
environment. -/
theorem C1_bridge_lacks_single_flight_guard_witness :
    (bridge happyEnv busyState "10").trace.take 2 =
      [BridgeEvent.setStatus "idle", BridgeEvent.setStatus "idle"] ∧
    (∀ st' : BridgeState,
       (bridge happyEnv st' "10").trace = (bridge happyEnv busyState "10").trace ∧
       (bridge happyEnv st' "10").result = (bridge happyEnv busyState "10").result) ∧
    (parseUnits "10" TOKEN_DECIMALS_USDC ≠ none →
      BridgeEvent.quoteCall ∈ (bridge happyEnv busyState "10").trace) :=
  C1_bridge_lacks_single_flight_guard happyEnv busyState "10"
    "0x1111111111111111111111111111111111111111" rfl rfl

/-- C2 counterexample: in the all-steps-succeed scenario with amount "10" and
allowance 0, the observed status sequence is not
[quoting, approving, executing, monitoring, success]: the hook has no quoting
or executing statuses — it writes idle twice while quoting and bridging while
executing. -/
theorem C2_counterexample_status_sequence :
    statusWrites (bridge happyEnv initialBridgeState "10").trace =
      ["idle", "idle", "approving", "bridging", "monitoring", "success"] ∧
    statusWrites (bridge happyEnv initialBridgeState "10").trace ≠
      ["quoting", "approving", "executing", "monitoring", "success"] := by decide

/-- C2 amended: for every run with amount "10" (6-decimal USDC: 10000000
smallest units), initial allowance 0 and every step succeeding, the observed
status sequence is exactly [idle, idle, approving, bridging, monitoring,
success], with exactly one approval transaction submitted — for amount
10000000 on the source USDC token to the plan's target — and exactly one
bridge transaction submitted, and the run returns the transaction hash with
the successful final status. -/
theorem C2_bridge_happy_path_observables (env : BridgeEnv) (w txh : String)
    (r : Route) (s : TransactionStatus)
    (hw : env.walletAddress = some w) (he : env.ethereumAvailable = true)
    (hq : env.quoteFetch (mkRequestParams (bridgeRouteParams w 10000000)) 0 =
      Except.ok ⟨some r⟩)
    (hfa : r.params.fromAmount = "10000000")
    (ha : env.allowance = 0)
    (hap : env.approveOutcome = Except.ok ())
    (hsub : env.submitOutcome = Except.ok txh)
    (hcon : env.confirmOutcome = Except.ok ())
    (hm : (monitorTransaction env.poll).result = Except.ok s)
    (hs : s.squidTransactionStatus = "success") :
    statusWrites (bridge env initialBridgeState "10").trace =
      ["idle", "idle", "approving", "bridging", "monitoring", "success"] ∧
    approvalsOf (bridge env initialBridgeState "10").trace =
      [(USDC_BASE, r.transactionRequest.target, 10000000)] ∧
    bridgeSubmissions (bridge env initialBridgeState "10").trace = [executeBridge r] ∧
    (bridge env initialBridgeState "10").result = Except.ok (txh, s) := by
  have hp : parseUnits "10" TOKEN_DECIMALS_USDC = some 10000000 := by decide
  have hgr : getRoute (bridgeRouteParams w 10000000) env.quoteFetch =
      Except.ok ⟨r, r.quoteId.getD ""⟩ := getRoute_first_ok _ _ _ hq
  have hbi : bigIntOfString r.params.fromAmount = some 10000000 := by
    rw [hfa]; decide
  have hbs : (s.squidTransactionStatus == "success") = true := by
    rw [hs]; rfl
  unfold bridge
  simp only [hw, he, hp, hgr, hbi, ha]
  rw [if_pos (by norm_num : (0 : Nat) < 10000000)]
  simp only [hap]
  unfold bridgeExecuteAndMonitor
  simp only [hsub, hcon, hm, hbs, if_true]
  simp [statusWrites, approvalsOf, bridgeSubmissions]

/-- Witness for C2 at the concrete all-succeeding environment. -/
theorem C2_bridge_happy_path_observables_witness :
    statusWrites (bridge happyEnv initialBridgeState "10").trace =
      ["idle", "idle", "approving", "bridging", "monitoring", "success"] ∧
    approvalsOf (bridge happyEnv initialBridgeState "10").trace =
      [(USDC_BASE, happyRoute.transactionRequest.target, 10000000)] ∧
    bridgeSubmissions (bridge happyEnv initialBridgeState "10").trace =
      [executeBridge happyRoute] ∧
    (bridge happyEnv initialBridgeState "10").result =
      Except.ok ("0xhash", doneStatus) :=
  C2_bridge_happy_path_observables happyEnv
    "0x1111111111111111111111111111111111111111" "0xhash" happyRoute doneStatus
    rfl rfl rfl (by decide) rfl rfl rfl rfl (by decide) rfl

/-- C4: if the current allowance is at least the required amount, the
allowance-check-and-approve step submits no approval transaction (the path is
a side-effect-free read); otherwise it submits exactly one approval for
exactly the required amount — every submitted approval equals the required
amount, never an unlimited one; and two successive runs of the step with the
same required amount submit at most one approval transaction in total. -/
theorem C4_ensureAllowance_exact_and_idempotent (allowance required : Nat) :
    (required ≤ allowance → ensureAllowance allowance required = (allowance, [])) ∧
    (allowance < required → ensureAllowance allowance required = (required, [required])) ∧
    (∀ a ∈ (ensureAllowance allowance required).2, a = required) ∧
    ((ensureAllowance allowance required).2 ++
      (ensureAllowance (ensureAllowance allowance required).1 required).2).length ≤ 1 := by
  by_cases h : allowance < required
  · simp [ensureAllowance, h]
  · simp [ensureAllowance, h]

/-- C6 counterexample: when the upstream answers with a plan whose
transactionRequest.target is empty, `getRoute` returns that plan instead of
failing — the non-empty-target guarantee does not hold. -/
theorem C6_counterexample_empty_target_returned :
    getRoute sampleParams (fun _ _ => Except.ok ⟨some emptyTargetRoute⟩) =
      Except.ok ⟨emptyTargetRoute, "q-1"⟩ ∧
    emptyTargetRoute.transactionRequest.target = "" := by decide

/-- C6 amended: `getRoute` fails exactly when the retried fetch fails
(non-success HTTP status) or the response has no `route` field; otherwise it
returns the upstream route verbatim with the quote id as request id,
performing no further validation — in particular the returned plan's
transactionRequest.target is not checked and may be empty. -/
theorem C6_getRoute_validates_only_route_presence (params : RouteParams)
    (fetch : RouteParams → Nat → Except JsError ApiResponse) :
    (∀ rr, getRoute params fetch = Except.ok rr →
       ∃ resp, (retryWithBackoff (fetch (mkRequestParams params)) 5 1000).result =
           Except.ok resp ∧
         resp.route = some rr.route ∧ rr.requestId = rr.route.quoteId.getD "") ∧
    (∀ e, (retryWithBackoff (fetch (mkRequestParams params)) 5 1000).result =
        Except.error e →
      getRoute params fetch = Except.error (rethrownError e)) ∧
    (∀ resp, (retryWithBackoff (fetch (mkRequestParams params)) 5 1000).result =
        Except.ok resp → resp.route = none →
      getRoute params fetch =
        Except.error (plainError "Invalid API response: missing route")) := by
  refine ⟨?_, ?_, ?_⟩
  · intro rr h
    unfold getRoute at h
    rcases hr : (retryWithBackoff (fetch (mkRequestParams params)) 5 1000).result with e | resp
    · rw [hr] at h; simp at h
    · rw [hr] at h
      simp only [] at h
      rcases hro : resp.route with _ | r
      · rw [hro] at h; simp at h
      · rw [hro] at h
        simp at h
        exact ⟨resp, rfl, by simp [hro, ← h], by simp [← h]⟩
  · intro e h
    unfold getRoute
    rw [h]
  · intro resp h hro
    unfold getRoute
    rw [h]
    simp only []
    rw [hro]

/-- C7 counterexample: two plans differing only in the transactionRequest's
gasPrice produce the same submitted transaction — the gasPrice gas parameter,
though present in the plan, is omitted, not taken verbatim. -/
theorem C7_counterexample_gasPrice_not_forwarded :
    gasPriceRoute.transactionRequest.gasPrice = some "1000000000" ∧
    noGasPriceRoute.transactionRequest =
      { gasPriceRoute.transactionRequest with gasPrice := none } ∧
    executeBridge gasPriceRoute = executeBridge noGasPriceRoute := by decide

/-- C7 amended: the single transaction `executeBridge` submits takes target,
data, value and gasLimit verbatim from the plan's transactionRequest, and
maxFeePerGas / maxPriorityFeePerGas verbatim whenever present and non-empty;
gasPrice is never forwarded — the submitted transaction is unchanged under any
change of the plan's gasPrice. -/
theorem C7_executeBridge_fields_except_gasPrice (route : Route) :
    (executeBridge route).toAddr = route.transactionRequest.target ∧
    (executeBridge route).data = route.transactionRequest.data ∧
    (executeBridge route).value = route.transactionRequest.value ∧
    (executeBridge route).gasLimit = route.transactionRequest.gasLimit ∧
    (∀ s, route.transactionRequest.maxFeePerGas = some s → s ≠ "" →
       (executeBridge route).maxFeePerGas = some s) ∧
    (∀ s, route.transactionRequest.maxPriorityFeePerGas = some s → s ≠ "" →
       (executeBridge route).maxPriorityFeePerGas = some s) ∧
    (∀ g, executeBridge
        { route with transactionRequest := { route.transactionRequest with gasPrice := g } } =
      executeBridge route) := by
  refine ⟨rfl, rfl, rfl, rfl, ?_, ?_, fun g => rfl⟩
  · intro s hs hne
    simp [executeBridge, truthyOpt, hs, hne]
  · intro s hs hne
    simp [executeBridge, truthyOpt, hs, hne]

/-- C9: in every `bridge` run, a bridge submission happens only with the
stored plan's transaction, only after the allowance for (source token,
spender = the plan's target) was read, and only when either the read allowance
already covered the plan's amount or an approval for exactly that amount was
confirmed before the submission; and the monitoring status is entered only
after the source-chain transaction was confirmed mined. -/
theorem C9_allowance_before_execution_and_confirmation_before_monitoring
    (env : BridgeEnv) (st : BridgeState) (amount : String) :
    (∀ tx, BridgeEvent.bridgeSubmit tx ∈ (bridge env st amount).trace →
       ∃ route req, (bridge env st amount).finalState.route = some route ∧
         tx = executeBridge route ∧
         bigIntOfString route.params.fromAmount = some req ∧
         BridgeEvent.allowanceRead env.allowance ∈
           eventsBefore (bridge env st amount).trace isBridgeSubmitEvent ∧
         (req ≤ env.allowance ∨
           BridgeEvent.approveSubmit USDC_BASE route.transactionRequest.target req ∈
             eventsBefore (bridge env st amount).trace isBridgeSubmitEvent)) ∧
    (BridgeEvent.setStatus "monitoring" ∈ (bridge env st amount).trace →
      BridgeEvent.txConfirmed ∈ eventsBefore (bridge env st amount).trace isMonitoringWrite) := by
  rcases bridge_cases env st amount with ⟨hno, hnom⟩ | ⟨route, req, pre, hroute, hbi, hpre, htr⟩
  · exact ⟨fun tx htx => absurd htx (hno tx), fun hm => absurd hm hnom⟩
  constructor
  · intro tx htx
    refine ⟨route, req, hroute, ?_, hbi, ?_, ?_⟩
    · rcases htr with h1 | h2 | ⟨last, hlast, h3⟩
      · rw [h1] at htx
        rcases hpre with ⟨_, hpe⟩ | ⟨_, hpe⟩ <;> subst hpe <;> simp at htx
      · rw [h2] at htx
        rcases hpre with ⟨_, hpe⟩ | ⟨_, hpe⟩ <;> subst hpe <;> simp at htx <;> simp [htx]
      · rcases hlast with hl | hl <;> subst hl <;> rw [h3] at htx <;>
          rcases hpre with ⟨_, hpe⟩ | ⟨_, hpe⟩ <;> subst hpe <;> simp at htx <;> simp [htx]
    · rcases htr with h1 | h2 | ⟨last, hlast, h3⟩
      · rw [h1] at htx
        rcases hpre with ⟨_, hpe⟩ | ⟨_, hpe⟩ <;> subst hpe <;> simp at htx
      · rw [h2]
        rcases hpre with ⟨_, hpe⟩ | ⟨_, hpe⟩ <;> subst hpe <;>
          simp [eventsBefore, isBridgeSubmitEvent, List.takeWhile]
      · rcases hlast with hl | hl <;> subst hl <;> rw [h3] <;>
          rcases hpre with ⟨_, hpe⟩ | ⟨_, hpe⟩ <;> subst hpe <;>
          simp [eventsBefore, isBridgeSubmitEvent, List.takeWhile]
    · rcases hpre with ⟨hle, hpe⟩ | ⟨hlt, hpe⟩
      · exact Or.inl hle
      · right
        rcases htr with h1 | h2 | ⟨last, hlast, h3⟩
        · rw [h1] at htx
          subst hpe; simp at htx
        · subst hpe
          rw [h2]
          simp [eventsBefore, isBridgeSubmitEvent, List.takeWhile]
        · rcases hlast with hl | hl <;> subst hl <;> subst hpe <;> rw [h3] <;>
            simp [eventsBefore, isBridgeSubmitEvent, List.takeWhile]
  · intro hm
    rcases htr with h1 | h2 | ⟨last, hlast, h3⟩
    · rw [h1] at hm
      rcases hpre with ⟨_, hpe⟩ | ⟨_, hpe⟩ <;> subst hpe <;> simp at hm
    · rw [h2] at hm
      rcases hpre with ⟨_, hpe⟩ | ⟨_, hpe⟩ <;> subst hpe <;> simp at hm
    · rcases hlast with hl | hl <;> subst hl <;> rw [h3] <;>
        rcases hpre with ⟨_, hpe⟩ | ⟨_, hpe⟩ <;> subst hpe <;>
        simp [eventsBefore, isMonitoringWrite, List.takeWhile]

end SquidBridge
